import Mathlib

/-!
Verification of the `handlers` package of latentgenius/urlshort
(src/students/latentgenius/handlers/handler.go), a small Go URL
shortener: handlers map request paths to redirect targets sourced from
a static map, YAML bytes, JSON bytes, or a gorm-managed database table,
delegating to a fallback handler when no mapping matches.

Modelling conventions:
* A request is reduced to the one field the code reads, `r.URL.Path`.
* A handler's observable behaviour on one request is an `Action`:
  it either calls `http.Redirect(w, r, url, status)`, calls
  `fallback.ServeHTTP(w, r)` on the supplied fallback, or writes text
  to the response body (`fmt.Fprintf(w, ...)`).  Writing to the body
  without an explicit `WriteHeader` makes net/http send status 200,
  which the `writeBody` action records.
* The fallback handler is an opaque value of an arbitrary type `α`;
  `serveFallback fb r` records that `fb.ServeHTTP` was invoked with
  request `r` and that the handler itself wrote nothing.
* Go's `map[string]string` is modelled as `String → Option String`
  where it is built key-by-key (the merged YAML map), and as an
  association list where the code iterates a decoded record
  (`entry["path"]` on a missing key yields Go's zero value "").
* The YAML/JSON decoding primitives (`yaml.Unmarshal`,
  `json.Unmarshal`) are external library calls; the adapters are
  parameterised by the decoder, a function from the input bytes to
  `Except`-style success or error.
* The gorm database handle is modelled by its observable contract:
  an `AutoMigrate` outcome and, per request,
  `db.Where(urlmap{Shortpath: path}).First(&dst)` which yields the
  first stored row whose `Shortpath` equals the path,
  `gorm.ErrRecordNotFound` when none matches, or some other error.
-/

namespace UrlShort

/-- An inbound HTTP request, reduced to the only field the handlers
read: `r.URL.Path`. -/
structure Request where
  path : String
deriving DecidableEq, Repr

/-- The observable action a handler takes on one request.  `α` is the
type of the opaque fallback handler. -/
inductive Action (α : Type) where
  /-- `http.Redirect(w, r, location, status)` was called. -/
  | redirect (location : String) (status : Nat)
  /-- `fallback.ServeHTTP(w, r)` was called on fallback `fb` with
  request `r`; the handler wrote nothing itself. -/
  | serveFallback (fb : α) (r : Request)
  /-- Text was written to the response body (net/http then sends the
  default status 200, as no `WriteHeader` call precedes the write). -/
  | writeBody (text : String) (status : Nat)
deriving DecidableEq, Repr

/-- A request handler: Go's `http.HandlerFunc`, observed as the action
it takes on each request. -/
def Handler (α : Type) : Type := Request → Action α

/-- `http.StatusFound` (302). -/
def statusFound : Nat := 302

/-- `http.StatusMovedPermanently` (301). -/
def statusMovedPermanently : Nat := 301

/-- A path-to-URL mapping, Go's `map[string]string` observed through
lookup: `m k = some v` iff the map holds key `k` with value `v`. -/
def PathMapping : Type := String → Option String

/-- `MapHandler(pathsToUrls, fallback)`: look the request path up in
the map; on a hit redirect (302 Found) to the mapped URL, on a miss
call the fallback with the request. -/
def MapHandler (pathsToUrls : PathMapping) (fallback : α) : Handler α :=
  fun r =>
    match pathsToUrls r.path with
    | some path => Action.redirect path statusFound
    | none => Action.serveFallback fallback r

/-- One decoded YAML record: Go's `map[string]string`, kept as the
association list of key/value pairs the decoder produced. -/
def Rec : Type := List (String × String)

/-- Go map indexing `entry[k]`: the stored value, or the string zero
value `""` when the key is absent. -/
def mapGet (entry : Rec) (k : String) : String :=
  (entry.lookup k).getD ""

/-- `buildMap(parsedYaml)`: fold the records in document order into a
fresh map, setting `mergedMap[entry["path"]] = entry["url"]` for each
record (a later duplicate path overwrites an earlier one). -/
def buildMap (parsedYaml : List Rec) : PathMapping :=
  parsedYaml.foldl
    (fun mergedMap entry =>
      fun k => if k = mapGet entry "path" then some (mapGet entry "url") else mergedMap k)
    (fun _ => none)

/-- Input bytes handed to a decoder. -/
def Bytes : Type := List Nat

/-- `YAMLHandler(yaml, fallback)`: run `parseYAML` (the external
`yaml.Unmarshal` into `[]map[string]string`, passed in as `parseYAML`);
on a decode error return `(nil, err)` with the error verbatim;
otherwise build the merged map and return `(MapHandler(pathMap,
fallback), nil)`. -/
def YAMLHandler (parseYAML : Bytes → Except String (List Rec))
    (yaml : Bytes) (fallback : α) : Option (Handler α) × Option String :=
  match parseYAML yaml with
  | Except.error err => (none, some err)
  | Except.ok parsedYaml => (some (MapHandler (buildMap parsedYaml) fallback), none)

/-- `JSONHandler(jsonData, fallback)`: run `parseJSON` (the external
`json.Unmarshal` into `map[string]string`, passed in as `parseJSON`);
on a decode error return `(nil, err)` with the error verbatim;
otherwise return `(MapHandler(parsedJSON, fallback), nil)`. -/
def JSONHandler (parseJSON : Bytes → Except String PathMapping)
    (jsonData : Bytes) (fallback : α) : Option (Handler α) × Option String :=
  match parseJSON jsonData with
  | Except.error err => (none, some err)
  | Except.ok parsedJSON => (some (MapHandler parsedJSON fallback), none)

/-- A row of the `urlmap` table. -/
structure UrlmapRow where
  shortpath : String
  url : String
deriving DecidableEq, Repr

/-- Outcome of `db.Where(urlmap{Shortpath: path}).First(&dst)`. -/
inductive QueryOutcome where
  /-- `err == nil`: `dst` holds the matching row. -/
  | found (row : UrlmapRow)
  /-- `err == gorm.ErrRecordNotFound`: no row matched. -/
  | errRecordNotFound
  /-- Any other query error, carrying its message. -/
  | errOther (msg : String)
deriving DecidableEq, Repr

/-- The gorm database handle, observed through the two operations the
code performs: `AutoMigrate` at construction and the per-request
`Where(...).First(...)` lookup.  `queryFailure`, when set, makes every
lookup fail with that error (connectivity loss, corruption, missing
table); otherwise the lookup scans the stored rows. -/
structure GormDB where
  autoMigrateError : Option String
  queryFailure : Option String
  rows : List UrlmapRow

/-- `db.Where(urlmap{Shortpath: path}).First(&dst)`: the first stored
row whose `Shortpath` equals `path`, `ErrRecordNotFound` when none
does, or the ambient query failure. -/
def GormDB.lookupFirst (db : GormDB) (path : String) : QueryOutcome :=
  match db.queryFailure with
  | some e => QueryOutcome.errOther e
  | none =>
    match db.rows.find? (fun row => row.shortpath = path) with
    | some row => QueryOutcome.found row
    | none => QueryOutcome.errRecordNotFound

/-- The request closure `DBHandler` returns: query the table for the
request path; on `ErrRecordNotFound` call the fallback, on any other
error write `"Unexpected error: <err>"` into the body (net/http then
sends 200), and on success redirect (301 Moved Permanently) to the
row's URL. -/
def DBServe (db : GormDB) (fallback : α) : Handler α :=
  fun r =>
    match db.lookupFirst r.path with
    | QueryOutcome.errRecordNotFound => Action.serveFallback fallback r
    | QueryOutcome.errOther e => Action.writeBody ("Unexpected error: " ++ e) 200
    | QueryOutcome.found dst => Action.redirect dst.url statusMovedPermanently

/-- Result of `DBHandler`: the returned handler and error, plus the
lines sent to `log.Println`. -/
structure DBBuild (α : Type) where
  handler : Option (Handler α)
  err : Option String
  logLines : List String

/-- `DBHandler(db, fallback)`: run `AutoMigrate` for the `urlmap`
schema; if it fails, `log.Println("Gorm error: ", err)` and continue.
Always return the request closure and a nil error. -/
def DBHandler (db : GormDB) (fallback : α) : DBBuild α :=
  { handler := some (DBServe db fallback)
    err := none
    logLines :=
      match db.autoMigrateError with
      | some e => ["Gorm error: " ++ e]
      | none => [] }

/-- Whether an action is the handler redirecting or delegating to its
fallback (as opposed to writing its own response body). -/
def redirectsOrDelegates : Action α → Bool
  | Action.redirect _ _ => true
  | Action.serveFallback _ _ => true
  | Action.writeBody _ _ => false

/-! ### Helper lemmas -/

/-- `find?` over an append scans the left list first. -/
lemma find?_append_cases (p : Rec → Bool) (l₁ l₂ : List Rec) :
    (l₁ ++ l₂).find? p =
      match l₁.find? p with
      | some x => some x
      | none => l₂.find? p := by
  induction l₁ with
  | nil => rfl
  | cons a t ih =>
    by_cases h : p a
    · simp [List.find?_cons_of_pos _ h]
    · simp [List.find?_cons_of_neg _ h, ih]

/-- The fold inside `buildMap`, run from any accumulator, answers a
lookup from the last record whose `"path"` field matches, falling back
to the accumulator. -/
lemma buildMap_foldl_lookup (recs : List Rec) (acc : PathMapping) (k : String) :
    recs.foldl
      (fun mergedMap entry =>
        fun q => if q = mapGet entry "path" then some (mapGet entry "url") else mergedMap q)
      acc k =
      match recs.reverse.find? (fun e => mapGet e "path" = k) with
      | some e => some (mapGet e "url")
      | none => acc k := by
  induction recs generalizing acc with
  | nil => rfl
  | cons e t ih =>
    simp only [List.foldl_cons, List.reverse_cons]
    rw [ih, find?_append_cases]
    cases h : t.reverse.find? (fun e => mapGet e "path" = k) with
    | some e₂ => rfl
    | none =>
      by_cases hk : mapGet e "path" = k
      · simp [List.find?_cons_of_pos, hk]
      · have hne : ¬(k = mapGet e "path") := fun hc => hk hc.symm
        simp [List.find?_cons_of_neg, hk, hne]

/-- `buildMap` answers a lookup from the last record whose `"path"`
field matches, and knows no other key. -/
lemma buildMap_lookup (recs : List Rec) (k : String) :
    buildMap recs k =
      match recs.reverse.find? (fun e => mapGet e "path" = k) with
      | some e => some (mapGet e "url")
      | none => none :=
  buildMap_foldl_lookup recs (fun _ => none) k

/-- In a list of rows with pairwise distinct `shortpath`s, `find?`
returns exactly the member row carrying the sought path. -/
lemma find?_rows_eq_of_mem {p : String} {row : UrlmapRow} :
    ∀ {rows : List UrlmapRow},
      rows.Pairwise (fun a b => a.shortpath ≠ b.shortpath) →
      row ∈ rows → row.shortpath = p →
      rows.find? (fun x => x.shortpath = p) = some row := by
  intro rows
  induction rows with
  | nil => intro _ hmem; cases hmem
  | cons a t ih =>
    intro hpw hmem hrp
    rw [List.pairwise_cons] at hpw
    by_cases ha : a.shortpath = p
    · have : row = a := by
        rcases List.mem_cons.mp hmem with h | h
        · exact h
        · exact absurd (hrp.trans ha.symm).symm (hpw.1 row h)
      rw [this]
      simp [List.find?, ha]
    · have hmem' : row ∈ t := by
        rcases List.mem_cons.mp hmem with h | h
        · exact absurd (h ▸ hrp) ha
        · exact h
      rw [List.find?_cons_of_neg _ (by simpa using ha)]
      exact ih hpw.2 hmem' hrp

/-! ### Claim theorems -/

/-- C1: the handler built by `MapHandler(M, F)` responds with a 302
Found redirect to `M[p]` iff the request path `p` is a key of `M`;
otherwise it invokes `F` with the original request unchanged, writing
nothing to the response itself. -/
theorem mapHandler_redirect_iff_key (m : PathMapping) (fallback : α) (r : Request) :
    (∀ url, MapHandler m fallback r = Action.redirect url 302 ↔ m r.path = some url) ∧
    (MapHandler m fallback r = Action.serveFallback fallback r ↔ m r.path = none) := by
  constructor
  · intro url
    unfold MapHandler
    cases h : m r.path with
    | some v => simp [statusFound]
    | none => simp
  · unfold MapHandler
    cases h : m r.path <;> simp

/-- Witness for C1 on a concrete map and request. -/
theorem mapHandler_redirect_iff_key_witness :
    MapHandler (fun k => if k = "/go" then some "https://go.dev" else none)
        "fb" ⟨"/go"⟩ =
      Action.redirect "https://go.dev" 302 ∧
    MapHandler (fun k => if k = "/go" then some "https://go.dev" else none)
        "fb" ⟨"/rust"⟩ =
      Action.serveFallback "fb" ⟨"/rust"⟩ := by
  constructor
  · exact ((mapHandler_redirect_iff_key _ "fb" ⟨"/go"⟩).1 "https://go.dev").mpr (by decide)
  · exact (mapHandler_redirect_iff_key _ "fb" ⟨"/rust"⟩).2.mpr (by decide)

/-- C2: the handler returned by `DBHandler` redirects with 301 Moved
Permanently to the stored URL when the table holds a row whose
`shortpath` equals the request path, and invokes the fallback with the
original request on the not-found query result. -/
theorem dbHandler_hit_301_miss_fallback (db : GormDB) (fallback : α) (r : Request)
    (hq : db.queryFailure = none)
    (hu : db.rows.Pairwise (fun a b => a.shortpath ≠ b.shortpath)) :
    (DBHandler db fallback).handler = some (DBServe db fallback) ∧
    (∀ row ∈ db.rows, row.shortpath = r.path →
      DBServe db fallback r = Action.redirect row.url 301) ∧
    ((∀ row ∈ db.rows, row.shortpath ≠ r.path) →
      DBServe db fallback r = Action.serveFallback fallback r) := by
  refine ⟨rfl, ?_, ?_⟩
  · intro row hmem hrp
    unfold DBServe GormDB.lookupFirst
    rw [hq, find?_rows_eq_of_mem hu hmem hrp]
    rfl
  · intro hnone
    unfold DBServe GormDB.lookupFirst
    rw [hq, List.find?_eq_none.mpr (by simpa using hnone)]

/-- Witness for C2 on a one-row database. -/
theorem dbHandler_hit_301_miss_fallback_witness :
    DBServe ⟨none, none, [⟨"/b", "Z"⟩]⟩ "fb" ⟨"/b"⟩ = Action.redirect "Z" 301 ∧
    DBServe ⟨none, none, [⟨"/b", "Z"⟩]⟩ "fb" ⟨"/missing"⟩ =
      Action.serveFallback "fb" ⟨"/missing"⟩ := by
  constructor
  · exact (dbHandler_hit_301_miss_fallback _ _ _ rfl (by simp)).2.1
      ⟨"/b", "Z"⟩ (by simp) (by decide)
  · exact (dbHandler_hit_301_miss_fallback _ _ _ rfl (by simp)).2.2 (by decide)

/-- C3: `buildMap` folds the decoded records in document order with
`mapping[path] = url`, so the last record carrying a given path
determines that path's URL (last-write-wins); in particular two
records for `/a` with urls `X` then `Y` leave `/a` mapped to `Y`. -/
theorem buildMap_last_write_wins :
    (∀ (recs₁ recs₂ : List Rec) (e : Rec),
      (∀ e₂ ∈ recs₂, mapGet e₂ "path" ≠ mapGet e "path") →
      buildMap (recs₁ ++ e :: recs₂) (mapGet e "path") = some (mapGet e "url")) ∧
    buildMap [[("path", "/a"), ("url", "X")], [("path", "/a"), ("url", "Y")]] "/a" =
      some "Y" := by
  constructor
  · intro recs₁ recs₂ e hlast
    rw [buildMap_lookup]
    rw [List.reverse_append, List.reverse_cons, List.append_assoc,
      find?_append_cases]
    rw [List.find?_eq_none.mpr (by simpa using fun e₂ hm => hlast e₂ (List.mem_reverse.mp hm))]
    simp [List.find?]
  · decide

/-- Witness for C3's general last-write-wins statement, at the claim's
two-record example. -/
theorem buildMap_last_write_wins_witness :
    buildMap ([[("path", "/a"), ("url", "X")]] ++ [("path", "/a"), ("url", "Y")] :: [])
        (mapGet [("path", "/a"), ("url", "Y")] "path") =
      some (mapGet [("path", "/a"), ("url", "Y")] "url") :=
  buildMap_last_write_wins.1 [[("path", "/a"), ("url", "X")]] []
    [("path", "/a"), ("url", "Y")] (by simp)

/-- C4: the YAML and JSON builds return the decoder's error verbatim
together with a nil handler when decoding fails, and a handler
together with a nil error exactly when decoding succeeds. -/
theorem adapters_propagate_decode_errors
    (parseYAML : Bytes → Except String (List Rec))
    (parseJSON : Bytes → Except String PathMapping)
    (yaml jsonData : Bytes) (fallback : α) :
    (∀ e, parseYAML yaml = Except.error e →
      YAMLHandler parseYAML yaml fallback = (none, some e)) ∧
    (∀ d, parseYAML yaml = Except.ok d →
      YAMLHandler parseYAML yaml fallback =
        (some (MapHandler (buildMap d) fallback), none)) ∧
    (∀ e, parseJSON jsonData = Except.error e →
      JSONHandler parseJSON jsonData fallback = (none, some e)) ∧
    (∀ d, parseJSON jsonData = Except.ok d →
      JSONHandler parseJSON jsonData fallback =
        (some (MapHandler d fallback), none)) ∧
    (((YAMLHandler parseYAML yaml fallback).1.isSome ∧
        (YAMLHandler parseYAML yaml fallback).2 = none) ↔
      (parseYAML yaml).isOk) ∧
    (((JSONHandler parseJSON jsonData fallback).1.isSome ∧
        (JSONHandler parseJSON jsonData fallback).2 = none) ↔
      (parseJSON jsonData).isOk) := by
  refine ⟨?_, ?_, ?_, ?_, ?_, ?_⟩
  · intro e h; unfold YAMLHandler; rw [h]
  · intro d h; unfold YAMLHandler; rw [h]
  · intro e h; unfold JSONHandler; rw [h]
  · intro d h; unfold JSONHandler; rw [h]
  · unfold YAMLHandler
    cases parseYAML yaml <;> simp [Except.isOk, Except.toBool]
  · unfold JSONHandler
    cases parseJSON jsonData <;> simp [Except.isOk, Except.toBool]

/-- Witness for C4 with one failing and one succeeding decoder of each
kind. -/
theorem adapters_propagate_decode_errors_witness :
    YAMLHandler (fun _ => Except.error "yaml: oops") [] "fb" =
      (none, some "yaml: oops") ∧
    JSONHandler (fun _ => Except.error "invalid character") [] "fb" =
      (none, some "invalid character") ∧
    YAMLHandler (fun _ => Except.ok ([] : List Rec)) [] "fb" =
      (some (MapHandler (buildMap []) "fb"), none) ∧
    JSONHandler (fun _ => Except.ok (fun _ => (none : Option String))) [] "fb" =
      (some (MapHandler (fun _ => none) "fb"), none) := by
  refine ⟨?_, ?_, ?_, ?_⟩
  · exact (adapters_propagate_decode_errors _ (fun _ => Except.error "x") [] [] "fb").1
      "yaml: oops" rfl
  · exact (adapters_propagate_decode_errors (fun _ => Except.error "x") _ [] [] "fb").2.2.1
      "invalid character" rfl
  · exact (adapters_propagate_decode_errors _ (fun _ => Except.error "x") [] [] "fb").2.1
      [] rfl
  · exact (adapters_propagate_decode_errors (fun _ => Except.error "x") _ [] [] "fb").2.2.2.1
      (fun _ => none) rfl

/-- C5 counterexample: the database-backed handler — produced by
`DBHandler` with a nil error — neither redirects nor delegates to its
fallback on a request whose lookup fails with a non-not-found error:
it writes its own response body. -/
theorem db_produced_handler_neither_redirects_nor_delegates :
    (DBHandler (⟨none, some "boom", []⟩ : GormDB) "fb").handler =
      some (DBServe ⟨none, some "boom", []⟩ "fb") ∧
    (DBHandler (⟨none, some "boom", []⟩ : GormDB) "fb").err = none ∧
    redirectsOrDelegates
      (DBServe (⟨none, some "boom", []⟩ : GormDB) "fb" ⟨"/x"⟩) = false :=
  ⟨rfl, rfl, rfl⟩

/-- C5 amended: every handler produced by `MapHandler`, `YAMLHandler`
or `JSONHandler` either redirects or delegates on every request; the
database-backed handler does so on every request whose lookup does not
fail with an error other than not-found; and no variant produces its
own not-found response — a miss is always forwarded to the fallback
with the original request. -/
theorem handlers_redirect_or_delegate (m : PathMapping) (fallback : α) (r : Request)
    (db : GormDB) :
    redirectsOrDelegates (MapHandler m fallback r) = true ∧
    (m r.path = none → MapHandler m fallback r = Action.serveFallback fallback r) ∧
    ((∀ e, db.lookupFirst r.path ≠ QueryOutcome.errOther e) →
      redirectsOrDelegates (DBServe db fallback r) = true) ∧
    (db.lookupFirst r.path = QueryOutcome.errRecordNotFound →
      DBServe db fallback r = Action.serveFallback fallback r) ∧
    (∀ (parseYAML : Bytes → Except String (List Rec)) (y : Bytes) (h : Handler α),
      (YAMLHandler parseYAML y fallback).1 = some h →
      ∃ mp, h = MapHandler mp fallback) ∧
    (∀ (parseJSON : Bytes → Except String PathMapping) (j : Bytes) (h : Handler α),
      (JSONHandler parseJSON j fallback).1 = some h →
      ∃ mp, h = MapHandler mp fallback) := by
  refine ⟨?_, ?_, ?_, ?_, ?_, ?_⟩
  · unfold MapHandler
    cases h : m r.path <;> rfl
  · intro h
    unfold MapHandler
    rw [h]
  · intro hno
    unfold DBServe
    cases h : db.lookupFirst r.path with
    | found dst => rfl
    | errRecordNotFound => rfl
    | errOther e => exact absurd h (hno e)
  · intro h
    unfold DBServe
    rw [h]
  · intro pY y h hsome
    unfold YAMLHandler at hsome
    cases hp : pY y with
    | error e => rw [hp] at hsome; cases hsome
    | ok d =>
      rw [hp] at hsome
      exact ⟨buildMap d, (Option.some.inj hsome).symm⟩
  · intro pJ j h hsome
    unfold JSONHandler at hsome
    cases hp : pJ j with
    | error e => rw [hp] at hsome; cases hsome
    | ok d =>
      rw [hp] at hsome
      exact ⟨d, (Option.some.inj hsome).symm⟩

/-- Witness for the amended C5 on concrete handlers and requests. -/
theorem handlers_redirect_or_delegate_witness :
    redirectsOrDelegates
      (MapHandler (fun _ => (none : Option String)) "fb" ⟨"/x"⟩) = true ∧
    MapHandler (fun _ => (none : Option String)) "fb" ⟨"/x"⟩ =
      Action.serveFallback "fb" ⟨"/x"⟩ ∧
    redirectsOrDelegates (DBServe ⟨none, none, []⟩ "fb" ⟨"/x"⟩) = true ∧
    DBServe ⟨none, none, []⟩ "fb" ⟨"/x"⟩ = Action.serveFallback "fb" ⟨"/x"⟩ := by
  have h := handlers_redirect_or_delegate (fun _ => none) "fb" ⟨"/x"⟩ ⟨none, none, []⟩
  exact ⟨h.1, h.2.1 rfl, h.2.2.1 (fun e hc => nomatch hc), h.2.2.2.1 rfl⟩

/-- C6: when the database lookup fails with any error other than
not-found, the handler writes `"Unexpected error: <err>"` into the
response body as plain text (net/http's implicit status 200) and
neither redirects nor invokes the fallback. -/
theorem db_query_error_writes_diagnostic (db : GormDB) (fallback : α) (r : Request)
    (e : String) (h : db.lookupFirst r.path = QueryOutcome.errOther e) :
    DBServe db fallback r = Action.writeBody ("Unexpected error: " ++ e) 200 ∧
    redirectsOrDelegates (DBServe db fallback r) = false := by
  unfold DBServe
  rw [h]
  exact ⟨rfl, rfl⟩

/-- Witness for C6 on a database whose queries fail. -/
theorem db_query_error_writes_diagnostic_witness :
    DBServe ⟨none, some "connection refused", []⟩ "fb" ⟨"/x"⟩ =
      Action.writeBody ("Unexpected error: " ++ "connection refused") 200 ∧
    redirectsOrDelegates
      (DBServe (⟨none, some "connection refused", []⟩ : GormDB) "fb" ⟨"/x"⟩) = false :=
  db_query_error_writes_diagnostic _ "fb" ⟨"/x"⟩ "connection refused" rfl

/-- C7: when `AutoMigrate` fails, `DBHandler` logs the failure and
construction still succeeds — a usable handler and a nil error are
returned. -/
theorem schema_failure_logged_construction_succeeds (db : GormDB) (fallback : α)
    (e : String) (h : db.autoMigrateError = some e) :
    (DBHandler db fallback).logLines = ["Gorm error: " ++ e] ∧
    (DBHandler db fallback).err = none ∧
    (DBHandler db fallback).handler = some (DBServe db fallback) := by
  unfold DBHandler
  rw [h]
  exact ⟨rfl, rfl, rfl⟩

/-- Witness for C7 on a database whose migration fails. -/
theorem schema_failure_logged_construction_succeeds_witness :
    (DBHandler (⟨some "no such table", none, []⟩ : GormDB) "fb").logLines =
      ["Gorm error: " ++ "no such table"] ∧
    (DBHandler (⟨some "no such table", none, []⟩ : GormDB) "fb").err = none ∧
    (DBHandler (⟨some "no such table", none, []⟩ : GormDB) "fb").handler =
      some (DBServe ⟨some "no such table", none, []⟩ "fb") :=
  schema_failure_logged_construction_succeeds _ "fb" "no such table" rfl

/-- C8: the handler the JSON adapter builds from the one-key object
mapping `p` to `u` and the handler the YAML adapter builds from the
one-record sequence with path `p` and url `u` agree on every request:
both redirect `p` to `u` with 302 and both delegate any other request
to the fallback. -/
theorem json_yaml_singleton_equivalent (p u : String) (fallback : α)
    (parseYAML : Bytes → Except String (List Rec))
    (parseJSON : Bytes → Except String PathMapping)
    (y j : Bytes) (hY hJ : Handler α)
    (hpy : parseYAML y = Except.ok [[("path", p), ("url", u)]])
    (hpj : parseJSON j = Except.ok (fun k => if k = p then some u else none))
    (hy : (YAMLHandler parseYAML y fallback).1 = some hY)
    (hj : (JSONHandler parseJSON j fallback).1 = some hJ) :
    (∀ r, hY r = hJ r) ∧
    hY ⟨p⟩ = Action.redirect u 302 ∧
    (∀ r, r.path ≠ p → hY r = Action.serveFallback fallback r) := by
  unfold YAMLHandler at hy
  rw [hpy] at hy
  unfold JSONHandler at hj
  rw [hpj] at hj
  have hYe : hY = MapHandler (buildMap [[("path", p), ("url", u)]]) fallback :=
    (Option.some.inj hy).symm
  have hJe : hJ = MapHandler (fun k => if k = p then some u else none) fallback :=
    (Option.some.inj hj).symm
  subst hYe
  subst hJe
  have hbm : ∀ k, buildMap [[("path", p), ("url", u)]] k =
      if k = p then some u else none := by
    intro k
    show (if k = mapGet [("path", p), ("url", u)] "path"
        then some (mapGet [("path", p), ("url", u)] "url") else none) = _
    have hpath : mapGet [("path", p), ("url", u)] "path" = p := rfl
    have hurl : mapGet [("path", p), ("url", u)] "url" = u := rfl
    rw [hpath, hurl]
  refine ⟨?_, ?_, ?_⟩
  · intro r
    unfold MapHandler
    rw [hbm]
  · unfold MapHandler
    rw [hbm]
    simp [statusFound]
  · intro r hne
    unfold MapHandler
    rw [hbm, if_neg hne]

/-- Witness for C8 at path `/a` and url `X`. -/
theorem json_yaml_singleton_equivalent_witness :
    MapHandler (buildMap [[("path", "/a"), ("url", "X")]]) "fb" ⟨"/a"⟩ =
      Action.redirect "X" 302 ∧
    MapHandler (buildMap [[("path", "/a"), ("url", "X")]]) "fb" ⟨"/a"⟩ =
      MapHandler (fun k => if k = "/a" then some "X" else none) "fb" ⟨"/a"⟩ := by
  have h := json_yaml_singleton_equivalent "/a" "X" "fb"
    (fun _ => Except.ok [[("path", "/a"), ("url", "X")]])
    (fun _ => Except.ok (fun k => if k = "/a" then some "X" else none))
    [] [] _ _ rfl rfl rfl rfl
  exact ⟨h.2.1, h.1 ⟨"/a"⟩⟩

/-- C9: a decoded record read through Go map indexing yields `""` for
a missing `path` or `url` field, and the record is merged into the
mapping like any other — so a record with no `path` field makes `""`
a key, and a request whose path is `""` is redirected to that
record's url. -/
theorem missing_field_decodes_to_empty_string (e : Rec) (fallback : α) :
    (List.lookup "path" e = none → mapGet e "path" = "") ∧
    (List.lookup "url" e = none → mapGet e "url" = "") ∧
    buildMap [e] (mapGet e "path") = some (mapGet e "url") ∧
    (List.lookup "path" e = none →
      MapHandler (buildMap [e]) fallback ⟨""⟩ =
        Action.redirect (mapGet e "url") 302) := by
  have hmerge : buildMap [e] (mapGet e "path") = some (mapGet e "url") := by
    show (if mapGet e "path" = mapGet e "path"
        then some (mapGet e "url") else none) = _
    simp
  refine ⟨?_, ?_, hmerge, ?_⟩
  · intro h
    unfold mapGet
    rw [h]
    rfl
  · intro h
    unfold mapGet
    rw [h]
    rfl
  · intro h
    have hp : mapGet e "path" = "" := by
      unfold mapGet
      rw [h]
      rfl
    have hb : buildMap [e] "" = some (mapGet e "url") := by
      rw [← hp]
      exact hmerge
    show (match buildMap [e] "" with
      | some path => Action.redirect path statusFound
      | none => Action.serveFallback fallback ⟨""⟩) = _
    rw [hb]
    rfl

/-- Witness for C9 on records each missing one field. -/
theorem missing_field_decodes_to_empty_string_witness :
    mapGet [("url", "https://x")] "path" = "" ∧
    mapGet [("path", "/p")] "url" = "" ∧
    MapHandler (buildMap [[("url", "https://x")]]) "fb" ⟨""⟩ =
      Action.redirect (mapGet [("url", "https://x")] "url") 302 := by
  refine ⟨?_, ?_, ?_⟩
  · exact (missing_field_decodes_to_empty_string [("url", "https://x")] "fb").1 rfl
  · exact (missing_field_decodes_to_empty_string [("path", "/p")] "fb").2.1 rfl
  · exact (missing_field_decodes_to_empty_string [("url", "https://x")] "fb").2.2.2 rfl

/-- C10: `DBHandler` construction never fails — the returned error is
always nil and a handler is always returned, whatever the migration
outcome. -/
theorem dbHandler_construction_never_fails (db : GormDB) (fallback : α) :
    (DBHandler db fallback).err = none ∧
    (DBHandler db fallback).handler = some (DBServe db fallback) :=
  ⟨rfl, rfl⟩

end UrlShort
